import Mathlib

/-!
# Verification of the py-venmo authenticated request pipeline

A shallow embedding, in Lean 4, of the core of the `venmo_api` client
library: the response validator (`apis/api_client.py`), the typed
deserializer (`apis/api_util.py`), the paginated result container and the
retrieval calls that produce it (`apis/user_api.py`), the authenticated
request client's header state (`apis/api_client.py`), the login flow
(`apis/auth_api.py`, `venmo.py`) and the balance-transfer entry point
(`apis/payment_api.py`).

JSON bodies are modelled by an inductive `Json` type; Python dictionary
access, truthiness, and attribute errors on `None` are modelled
explicitly, so that the embedded functions follow the Python source
expression by expression, short-circuit by short-circuit.
-/

namespace Venmo

/-- A parsed JSON value, as handed around by `requests.Response.json()`.
Python `None` stored in an object is `Json.null`; numeric error codes in
this API are integers. -/
inductive Json where
  | null : Json
  | bool (b : Bool) : Json
  | num (n : Int) : Json
  | str (s : String) : Json
  | arr (xs : List Json) : Json
  | obj (fields : List (String × Json)) : Json

/-- First binding for `k` in an association list; Python dicts have unique
keys, which a first-match lookup models. -/
def jlookup (fields : List (String × Json)) (k : String) : Option Json :=
  (fields.find? (fun p => p.1 == k)).map (·.2)

/-- Python truthiness of a JSON value (`if body:` / `if temp:`):
`None`, `False`, `0`, `""`, `[]` and `{}` are falsy. -/
def Json.truthy : Json → Bool
  | .null => false
  | .bool b => b
  | .num n => n != 0
  | .str s => !s.isEmpty
  | .arr xs => !xs.isEmpty
  | .obj fields => !fields.isEmpty

/-- Python `x.get(k)` on a JSON value: defined (returning the stored value,
or `None` for a missing key) only when `x` is a dict; on anything else —
in particular on `None` — the attribute lookup raises `AttributeError`,
modelled as `none`. -/
def dictGet (j : Json) (k : String) : Option Json :=
  match j with
  | .obj fields => some ((jlookup fields k).getD .null)
  | _ => none

/-- Python `body.get("error").get("code")`: the chained dictionary access
used by the response validator. `none` models an `AttributeError` raised
along the chain. -/
def getErrCode (body : Json) : Option Json :=
  match dictGet body "error" with
  | none => none
  | some e => dictGet e "code"

/-- Python `v == n` for `n` an `int` literal: only numbers (and booleans,
which Python compares as 0/1) can equal an integer. -/
def pyEqInt (v : Json) (n : Int) : Bool :=
  match v with
  | .num m => m == n
  | .bool b => (if b then (1 : Int) else 0) == n
  | _ => false

/-- Python `v in ok_error_codes` guarded by the truthiness of both `body`
and `ok_error_codes`: `none` (the argument defaulted) and `[]` are falsy. -/
def memOkCodes (v : Json) (ok : Option (List Int)) : Bool :=
  match ok with
  | some codes => codes.any (fun n => pyEqInt v n)
  | none => false

/-- Truthiness of the `ok_error_codes` argument (`None` and `[]` falsy). -/
def okTruthy (ok : Option (List Int)) : Bool :=
  match ok with
  | some codes => !codes.isEmpty
  | none => false

/-- HTTP headers as sent by `requests`: an association list whose lookup is
case-insensitive (`CaseInsensitiveDict`). An update prepends; lookups take
the first match, which models dict-replacement semantics. -/
abbrev Headers := List (String × String)

/-- Lower-casing of a header name, as `CaseInsensitiveDict` applies to its
keys before comparing. -/
def lowerKey (s : String) : String :=
  ⟨s.data.map Char.toLower⟩

/-- Case-insensitive header lookup (`CaseInsensitiveDict.__getitem__`). -/
def hget (hs : Headers) (k : String) : Option String :=
  (hs.find? (fun p => lowerKey p.1 == lowerKey k)).map (·.2)

/-- Case-insensitive header update (`CaseInsensitiveDict.update` with a
single key): the new binding shadows any old one. -/
def hset (hs : Headers) (k v : String) : Headers :=
  (k, v) :: hs

/-- The record built by `ApiClient._validate_response`
(`apis/api_util.py`, `@dataclass ValidatedResponse`). -/
structure ValidatedResponse where
  status_code : Nat
  headers : Headers
  body : Json

/-- The ways `_validate_response` can fail: the exceptions it raises
(`ResourceNotFoundError`, `HttpCodeError` carrying status and body), the
`AttributeError` a `None.get` slip raises, and — in the older draft — an
uncaught `JSONDecodeError`. -/
inductive VError where
  | resourceNotFound : VError
  | httpError (status : Nat) (body : Json) : VError
  | attributeError : VError
  | jsonDecodeError : VError

/-- The `elif`/`else` tail of `ApiClient._validate_response`
(`apis/api_client.py` lines 162-166): reached when neither the 20x check
nor the acceptable-codes disjunct returned. -/
def validateTail (status : Nat) (body : Json) : Except VError ValidatedResponse :=
  if status == 400 then
    match getErrCode body with
    | none => .error .attributeError
    | some v =>
        if pyEqInt v 283 then .error .resourceNotFound
        else .error (.httpError status body)
  else .error (.httpError status body)

/-- `ApiClient._validate_response` (`apis/api_client.py` lines 139-166).
`rawBody : Option Json` is the result of `response.json()` — `none` when
the body is unparsable (`JSONDecodeError` caught, body set to `{}`).
The first `if` is
`status in range(200,205) or (body and ok_error_codes and body.get("error").get("code") in ok_error_codes)`,
with Python's left-to-right short-circuit evaluation. -/
def validate_response (status : Nat) (headers : Headers) (rawBody : Option Json)
    (ok : Option (List Int)) : Except VError ValidatedResponse :=
  let body := rawBody.getD (.obj [])
  let built : ValidatedResponse := ⟨status, headers, body⟩
  if 200 ≤ status ∧ status < 205 then .ok built
  else if body.truthy && okTruthy ok then
    match getErrCode body with
    | none => .error .attributeError
    | some v =>
        if memOkCodes v ok then .ok built
        else validateTail status body
  else validateTail status body

/-- The `else` tail of the draft `ApiClient.__validate_response`
(`utils/api_client.py` lines 231-239). -/
def validateDraftTail (status : Nat) (body : Json) (ok : Option (List Int))
    (built : ValidatedResponse) : Except VError ValidatedResponse :=
  if body.truthy && okTruthy ok then
    match getErrCode body with
    | none => .error .attributeError
    | some v =>
        if memOkCodes v ok then .ok built
        else .error (.httpError status body)
  else .error (.httpError status body)

/-- The draft `ApiClient.__validate_response` (`utils/api_client.py` lines
201-239). Differences from the final version: headers are dropped when the
body is unparsable; the sentinel `elif` comes before the acceptable-codes
check and re-calls `response.json()`, so an unparsable body at status 400
raises `JSONDecodeError` uncaught; `response.json` (unapplied) in the first
condition is always truthy. -/
def validate_response_draft (status : Nat) (headers : Headers) (rawBody : Option Json)
    (ok : Option (List Int)) : Except VError ValidatedResponse :=
  let body := rawBody.getD (.obj [])
  let hs := if rawBody.isSome then headers else []
  let built : ValidatedResponse := ⟨status, hs, body⟩
  if 200 ≤ status ∧ status < 205 then .ok built
  else if status == 400 then
    match rawBody with
    | none => .error .jsonDecodeError
    | some b =>
        match getErrCode b with
        | none => .error .attributeError
        | some v =>
            if pyEqInt v 283 then .error .resourceNotFound
            else validateDraftTail status body ok built
  else validateDraftTail status body ok built

/-! ## The authenticated request client's session identity
(`apis/api_client.py` lines 23-63, 105-137) -/

/-- The mutable state of an `ApiClient`: the three identity fields plus the
two header dictionaries (`self.default_headers` and the live
`self.session.headers`) that the `update_*` methods write through to. The
random 64-bit session id is modelled as an input to `update_session_id`. -/
structure ApiClientState where
  access_token : Option String
  device_id : Option String
  session_id : Option String
  default_headers : Headers
  session_headers : Headers

/-- `ApiClient.update_access_token` (lines 55-58): stores the token and sets
`Authorization: Bearer <token>` on both header dicts. -/
def update_access_token (st : ApiClientState) (tok : String) : ApiClientState :=
  { st with
    access_token := some tok,
    default_headers := hset st.default_headers "Authorization" ("Bearer " ++ tok),
    session_headers := hset st.session_headers "Authorization" ("Bearer " ++ tok) }

/-- `ApiClient.update_device_id` (lines 60-63). -/
def update_device_id (st : ApiClientState) (d : String) : ApiClientState :=
  { st with
    device_id := some d,
    default_headers := hset st.default_headers "device-id" d,
    session_headers := hset st.session_headers "device-id" d }

/-- `ApiClient.update_session_id` (lines 50-53); `sid` stands for the fresh
`str(getrandbits(64))`. -/
def update_session_id (st : ApiClientState) (sid : String) : ApiClientState :=
  { st with
    session_id := some sid,
    default_headers := hset st.default_headers "X-Session-ID" sid,
    session_headers := hset st.session_headers "X-Session-ID" sid }

/-- An operation later performed on the client: the identity mutators other
than `update_access_token`, and an outgoing request with its per-call header
overrides (`header_params`). `ApiClient.request` does not mutate the session,
so a request carries no state change. -/
inductive ClientOp where
  | updateDeviceId (d : String) : ClientOp
  | updateSessionId (sid : String) : ClientOp
  | doRequest (overrides : Headers) : ClientOp

def applyOp (st : ApiClientState) : ClientOp → ApiClientState
  | .updateDeviceId d => update_device_id st d
  | .updateSessionId sid => update_session_id st sid
  | .doRequest _ => st

def applyOps (st : ApiClientState) (ops : List ClientOp) : ApiClientState :=
  ops.foldl applyOp st

/-- The headers an outgoing request actually carries:
`requests` merges the per-call `headers=` dict over the session headers
(`merge_setting`: session headers copied, then updated key by key from the
per-call dict, case-insensitively). -/
def requestHeaders (st : ApiClientState) (overrides : Headers) : Headers :=
  overrides.foldl (fun acc kv => hset acc kv.1 kv.2) st.session_headers

/-! ## Login flow (`apis/auth_api.py` lines 32-63, `venmo.py` lines 39-58) -/

/-- Exceptions out of the login flow. `attributeError`, `keyError` and
`typeError` model the corresponding Python exceptions on malformed bodies. -/
inductive AuthError where
  | authenticationFailed : AuthError
  | attributeError : AuthError
  | keyError : AuthError
  | typeError : AuthError

/-- `AuthenticationApi.login_with_credentials_cli` (lines 32-63), after the
credential-exchange response has come back. `twoFactor` abstracts the
two-factor path (`_two_factor_process_cli` followed by `trust_this_device`),
which performs prompts and network calls of its own; it returns the token and
the client state it leaves behind. The returned `Bool` records whether the
OTP path was invoked.

The branch is `if response.body.get("error"):`; in the else branch the token
is read by indexing, `response.body["access_token"]`, which raises `KeyError`
when absent, and the client state is left untouched (this method updates the
client's token only on the two-factor path). -/
def login_with_credentials_cli (st : ApiClientState) (resp : ValidatedResponse)
    (twoFactor : ApiClientState → Except AuthError (String × ApiClientState)) :
    Except AuthError (String × ApiClientState × Bool) :=
  match resp.body with
  | .obj fields =>
      if ((jlookup fields "error").getD .null).truthy then
        match twoFactor st with
        | .error e => .error e
        | .ok (tok, st1) => .ok (tok, st1, true)
      else
        match jlookup fields "access_token" with
        | some (.str tok) => .ok (tok, st, false)
        | some _ => .error .typeError
        | none => .error .keyError
  | _ => .error .attributeError

/-- `Client.login` (`venmo.py` lines 39-58): runs the credential flow and
then calls `api_client.update_access_token(access_token)` on the client. -/
def Client_login (st : ApiClientState) (resp : ValidatedResponse)
    (twoFactor : ApiClientState → Except AuthError (String × ApiClientState)) :
    Except AuthError (String × ApiClientState × Bool) :=
  match login_with_credentials_cli st resp twoFactor with
  | .error e => .error e
  | .ok (tok, st1, otp) => .ok (tok, update_access_token st1 tok, otp)

/-- Python `str.isdigit()` restricted to ASCII decimal input: false on the
empty string, true when every character is a digit. -/
def pyIsdigit (s : String) : Bool :=
  !s.isEmpty && s.toList.all Char.isDigit

/-- `AuthenticationApi._ask_user_for_otp_password` (`apis/auth_api.py` lines
207-215): starting from `otp = ""`, re-prompts while
`len(otp) < 6 or not otp.isdigit()`. The argument is the stream of strings
the user enters; `none` models the stream running dry (`EOFError`). -/
def ask_user_for_otp_password : List String → Option String
  | [] => none
  | s :: rest =>
      if s.length < 6 || !pyIsdigit s then ask_user_for_otp_password rest
      else some s

/-! ## Retrieval calls and the paginated result container
(`apis/user_api.py` lines 57-88 and 124-148; `models/page.py`) -/

/-- The query parameters `UserApi.search_for_users` sends to `GET /users`:
`{"query": ..., "limit": ..., "offset": ...}`, with the query stripped of
`@` and `"type": "username"` added when searching by username. -/
structure SearchRequest where
  query : String
  byUsername : Bool
  limit : Nat
  offset : Nat
deriving DecidableEq

/-- The `params` dict built at `apis/user_api.py` lines 76-79:
`if username or "@" in query: params.update({"query": query.replace("@", ""), "type": "username"})`. -/
def searchParams (query : String) (username : Bool) (limit offset : Nat) : SearchRequest :=
  if username || query.contains '@' then
    { query := query.replace "@" "", byUsername := true, limit := limit, offset := offset }
  else
    { query := query, byUsername := false, limit := limit, offset := offset }

/-- The container returned by `search_for_users`: the deserialized records
together with what `Page.set_method` records — the kwargs
`{"query": query, "limit": limit}` and `current_offset=offset`. -/
structure UserPage (α : Type) where
  items : List α
  queryKw : String
  limitKw : Nat
  current_offset : Nat

/-- `UserApi.search_for_users` (lines 57-88). `upstream` abstracts
`call_api` + `deserialize`: the list of records the service returns for a
given request. The returned page records the producing call via
`set_method(method=self.search_for_users, kwargs={"query": query, "limit": limit}, current_offset=offset)`. -/
def search_for_users {α : Type} (upstream : SearchRequest → List α) (query : String)
    (offset limit : Nat) (username : Bool) : UserPage α :=
  { items := upstream (searchParams query username limit offset),
    queryKw := query,
    limitKw := limit,
    current_offset := offset }

/-- Modelled from the spec: `Page`'s "next page" operation
(`venmo_api/models/page.py` is not under `src/`; only its callers are).
Per the spec, next page "re-invokes the recorded retrieval function with the
same keyword arguments and an offset advanced by ... the page's configured
limit — the page boundary is the limit originally requested, not the number
of items actually returned". This is the request that re-invocation of
`search_for_users` issues. -/
def UserPage.nextRequest {α : Type} (p : UserPage α) : SearchRequest :=
  searchParams p.queryKw false p.limitKw (p.current_offset + p.limitKw)

/-- Modelled from the spec: the container "next page" returns — a fresh call
of `search_for_users` with the recorded kwargs and the advanced offset. -/
def UserPage.nextPage {α : Type} (upstream : SearchRequest → List α) (p : UserPage α) :
    UserPage α :=
  search_for_users upstream p.queryKw (p.current_offset + p.limitKw) p.limitKw false

/-- The query parameters `UserApi.get_user_friends_list` sends:
`{"limit": ..., "offset": ...}` on `GET /users/{user_id}/friends`. -/
structure FriendsRequest where
  user_id : String
  limit : Nat
  offset : Nat
deriving DecidableEq

/-- The container returned by `get_user_friends_list`, recording
`kwargs={"user_id": user_id, "limit": limit}` and `current_offset=offset`. -/
structure FriendsPage (α : Type) where
  items : List α
  userIdKw : String
  limitKw : Nat
  current_offset : Nat

/-- `UserApi.get_user_friends_list` (lines 124-148). -/
def get_user_friends_list {α : Type} (upstream : FriendsRequest → List α)
    (user_id : String) (offset limit : Nat) : FriendsPage α :=
  { items := upstream ⟨user_id, limit, offset⟩,
    userIdKw := user_id,
    limitKw := limit,
    current_offset := offset }

/-- Modelled from the spec: the request "next page" issues for a friends
page (offset advanced by the configured limit). -/
def FriendsPage.nextRequest {α : Type} (p : FriendsPage α) : FriendsRequest :=
  ⟨p.userIdKw, p.limitKw, p.current_offset + p.limitKw⟩

/-- Modelled from the spec: "next page" for a friends-list page. -/
def FriendsPage.nextPage {α : Type} (upstream : FriendsRequest → List α)
    (p : FriendsPage α) : FriendsPage α :=
  get_user_friends_list upstream p.userIdKw (p.current_offset + p.limitKw) p.limitKw

/-! ## Typed deserializer (`apis/api_util.py` lines 18-76) -/

/-- The exceptions `deserialize` can raise: the bare `Exception` on an empty
body, the `ValueError` on a missing/falsy nested key, an `AttributeError`
on `.get` of a non-dict, and a conversion failure (pydantic
`ValidationError` or a failing primitive coercion). -/
inductive DeserError where
  | emptyBody : DeserError
  | missingNestedKey (key : String) : DeserError
  | attributeError : DeserError
  | conversionError : DeserError

/-- The Paginated Result Container as `deserialize` builds it: an ordered
sequence of converted records (`Page` is a list subclass; the producing call
is recorded afterwards by the retrieval method, not here). -/
structure Page (α : Type) where
  items : List α

/-- What `deserialize` returns: a single converted record or a page. -/
inductive Deserialized (α : Type) where
  | single (a : α) : Deserialized α
  | page (p : Page α) : Deserialized α

/-- `__get_objs_from_json_list` (lines 57-76): converts every element in
order, appending to a fresh `Page`; a failing element conversion raises out
of the loop (`none`), discarding the partial page. `conv` abstracts
`data_type.model_validate` / the primitive coercion, `none` meaning the
conversion raised. -/
def get_objs_from_json_list {α : Type} (conv : Json → Option α) :
    List Json → Option (List α)
  | [] => some []
  | x :: xs =>
      match conv x with
      | none => none
      | some a =>
          match get_objs_from_json_list conv xs with
          | none => none
          | some rest => some (a :: rest)

/-- The nested-key walk of `deserialize` (lines 40-45):
`temp = data.get(nested); if not temp: raise ValueError(...); data = temp`. -/
def walkNested : Json → List String → Except DeserError Json
  | d, [] => .ok d
  | d, k :: ks =>
      match dictGet d k with
      | none => .error .attributeError
      | some t => if t.truthy then walkNested t ks else .error (.missingNestedKey k)

/-- `deserialize` (`apis/api_util.py` lines 18-54). -/
def deserialize {α : Type} (conv : Json → Option α) (response : ValidatedResponse)
    (nested_response : List String) : Except DeserError (Deserialized α) :=
  if !response.body.truthy then .error .emptyBody
  else
    match dictGet response.body "data" with
    | none => .error .attributeError
    | some data0 =>
        match walkNested data0 nested_response with
        | .error e => .error e
        | .ok (.arr xs) =>
            match get_objs_from_json_list conv xs with
            | none => .error .conversionError
            | some items => .ok (.page ⟨items⟩)
        | .ok d =>
            match conv d with
            | none => .error .conversionError
            | some a => .ok (.single a)

/-! ## Balance transfer (`apis/payment_api.py` lines 204-244) -/

/-- The body `PaymentApi.initiate_transfer` posts to `/transfers`. -/
structure TransferBody where
  amount : Int
  destination_id : String
  transfer_type : String
  final_amount : Int
deriving DecidableEq

inductive TransferError where
  | valueError : TransferError
deriving DecidableEq

/-- Python's built-in `round` to an integer: round half to even, on an exact
rational amount. -/
def pyRound (q : ℚ) : Int :=
  let f := ⌊q⌋
  let r := q - f
  if r < 1 / 2 then f
  else if 1 / 2 < r then f + 1
  else if f % 2 = 0 then f else f + 1

/-- `PaymentApi.initiate_transfer` (lines 204-244), up to the point the
request body is built. The guard is
`if amount is None and self._balance is not None: amount = self._balance
else: raise ValueError(...)`, so every call with an explicit amount raises
before any request; when it passes, `amount_cents = round(amount * 100)` and
the posted body carries it as both `amount` and `final_amount`. -/
def initiate_transfer (balance : Option ℚ) (destination_id : String)
    (amount : Option ℚ) (trans_type : String) : Except TransferError TransferBody :=
  match amount, balance with
  | none, some b =>
      let amount_cents := pyRound (b * 100)
      .ok ⟨amount_cents, destination_id, trans_type, amount_cents⟩
  | _, _ => .error .valueError

/-! ## Basic facts about the validated-response model -/

/-- A body whose `error.code` chain evaluates without `AttributeError` is a
non-empty dict, hence truthy. -/
theorem truthy_of_getErrCode {body : Json} {v : Json}
    (h : getErrCode body = some v) : body.truthy = true := by
  cases body with
  | obj fields =>
      cases fields with
      | nil => simp [getErrCode, dictGet, jlookup, List.find?] at h
      | cons p rest => simp [Json.truthy]
  | null => simp [getErrCode, dictGet] at h
  | bool b => simp [getErrCode, dictGet] at h
  | num n => simp [getErrCode, dictGet] at h
  | str s => simp [getErrCode, dictGet] at h
  | arr xs => simp [getErrCode, dictGet] at h

/-- A successful membership test in the acceptable codes implies the
acceptable-codes argument is truthy. -/
theorem okTruthy_of_memOkCodes {v : Json} {ok : Option (List Int)}
    (h : memOkCodes v ok = true) : okTruthy ok = true := by
  cases ok with
  | none => simp [memOkCodes] at h
  | some codes =>
      cases codes with
      | nil => simp [memOkCodes] at h
      | cons c rest => simp [okTruthy]

/-- The body `{"error": {"code": 283}}` of the resource-not-found sentinel. -/
def sentinelBody : Json :=
  .obj [("error", .obj [("code", .num 283)])]

/-- C6: every response with status in [200,205) validates successfully, with
the parsed body passed through unconditionally — an unparsable body is
wrapped as the empty object — whatever the body and acceptable codes. -/
theorem validate_success_range (status : Nat) (headers : Headers)
    (rawBody : Option Json) (ok : Option (List Int))
    (h₁ : 200 ≤ status) (h₂ : status < 205) :
    validate_response status headers rawBody ok =
      .ok ⟨status, headers, rawBody.getD (.obj [])⟩ := by
  unfold validate_response
  rw [if_pos ⟨h₁, h₂⟩]

/-- Closed instance of `validate_success_range`: a 200 response with an
unparsable body and no acceptable codes validates to the empty-object body. -/
theorem validate_success_range_witness :
    validate_response 200 [] none none = .ok ⟨200, [], .obj []⟩ :=
  validate_success_range 200 [] none none (by decide) (by decide)

/-- C7: whenever the parsed body's embedded `error.code` is a member of the
caller's acceptable-codes set, validation succeeds and the body field of the
result is the parsed input body itself, unmodified. -/
theorem validate_acceptable_roundtrip (status : Nat) (headers : Headers)
    (body : Json) (ok : Option (List Int)) (v : Json)
    (hv : getErrCode body = some v) (hmem : memOkCodes v ok = true) :
    validate_response status headers (some body) ok =
      .ok ⟨status, headers, body⟩ := by
  have hb := truthy_of_getErrCode hv
  have hok := okTruthy_of_memOkCodes hmem
  by_cases hs : 200 ≤ status ∧ status < 205
  · unfold validate_response
    rw [if_pos hs]
    rfl
  · unfold validate_response
    rw [if_neg hs]
    simp [hb, hok, hv, hmem]

/-- Closed instance of `validate_acceptable_roundtrip`: a 400 response whose
body embeds the payment error code 2907, with 2907 acceptable, round-trips. -/
theorem validate_acceptable_roundtrip_witness :
    validate_response 400 [] (some (.obj [("error", .obj [("code", .num 2907)])]))
        (some [2901, 2907]) =
      .ok ⟨400, [], .obj [("error", .obj [("code", .num 2907)])]⟩ :=
  validate_acceptable_roundtrip 400 [] (.obj [("error", .obj [("code", .num 2907)])])
    (some [2901, 2907]) (.num 2907) rfl rfl

/-- C1 counterexample: a 400 response embedding error code 283, validated
with an acceptable-codes set containing 283, is returned as a
`ValidatedResponse` by `_validate_response` — it does not fail with
`ResourceNotFoundError`, so the sentinel does not take precedence. -/
theorem validate_sentinel_overridden_cex :
    validate_response 400 [] (some sentinelBody) (some [283]) =
      .ok ⟨400, [], sentinelBody⟩ ∧
    validate_response 400 [] (some sentinelBody) (some [283]) ≠
      .error .resourceNotFound := by
  refine ⟨rfl, ?_⟩
  intro h
  rw [show validate_response 400 [] (some sentinelBody) (some [283]) =
        .ok ⟨400, [], sentinelBody⟩ from rfl] at h
  exact Except.noConfusion h

/-- C1 (amended): on a 400 response whose body embeds error code 283,
`_validate_response` fails with `ResourceNotFoundError` exactly when 283 is
not matched by the acceptable-codes set; when the caller lists 283 as
acceptable, the acceptable-codes branch takes precedence and the response is
returned. In the older draft `__validate_response` (`utils/api_client.py`),
the sentinel does take precedence over the acceptable codes. -/
theorem validate_sentinel_amended (headers : Headers) (body : Json)
    (ok : Option (List Int)) (v : Json)
    (hv : getErrCode body = some v) (h283 : pyEqInt v 283 = true) :
    validate_response 400 headers (some body) ok =
      (if memOkCodes v ok then .ok ⟨400, headers, body⟩
       else .error .resourceNotFound) ∧
    validate_response_draft 400 headers (some body) ok =
      .error .resourceNotFound := by
  have hb := truthy_of_getErrCode hv
  have hrange : ¬(200 ≤ 400 ∧ 400 < 205) := by decide
  constructor
  · unfold validate_response
    rw [if_neg hrange]
    by_cases hmem : memOkCodes v ok = true
    · have hok := okTruthy_of_memOkCodes hmem
      simp [hb, hok, hv, hmem]
    · rw [if_neg hmem]
      by_cases hok : okTruthy ok = true
      · simp [hb, hok, hv, hmem, validateTail, h283]
      · simp [hb, hok, hv, validateTail, h283]
  · unfold validate_response_draft
    rw [if_neg hrange]
    simp [hv, h283]

/-- Closed instance of `validate_sentinel_amended` at the sentinel body with
no acceptable codes supplied: both validators fail with resource-not-found. -/
theorem validate_sentinel_amended_witness :
    (validate_response 400 [] (some sentinelBody) none =
      (if memOkCodes (.num 283) none then .ok ⟨400, [], sentinelBody⟩
       else .error .resourceNotFound)) ∧
    validate_response_draft 400 [] (some sentinelBody) none =
      .error .resourceNotFound :=
  validate_sentinel_amended [] sentinelBody none (.num 283) rfl rfl

/-- C3: at the spec's fallback case of a 400 response with an unparsable
body — parsed as the empty object, containing no error object —
`_validate_response` raises `AttributeError` (from
`body.get("error").get("code")` where `body.get("error")` is `None`), not
the `HttpCodeError` the fallback contract requires. -/
theorem validate_400_empty_body_attribute_error :
    validate_response 400 [] none none = .error .attributeError ∧
    validate_response 400 [] (some (.obj [("foo", .num 1)])) none =
      .error .attributeError := by
  exact ⟨rfl, rfl⟩

/-! ## Header-state lemmas -/

/-- Looking a key up after a case-insensitive header update. -/
theorem hget_hset (hs : Headers) (k v k' : String) :
    hget (hset hs k v) k' =
      if lowerKey k == lowerKey k' then some v else hget hs k' := by
  by_cases h : (lowerKey k == lowerKey k') = true
  · simp [hget, hset, List.find?, h]
  · rw [Bool.not_eq_true] at h
    simp [hget, hset, List.find?, h]

/-- No client operation other than `update_access_token` changes what the
session sends for `Authorization`. -/
theorem hget_applyOp_auth (st : ApiClientState) (op : ClientOp) :
    hget (applyOp st op).session_headers "Authorization" =
      hget st.session_headers "Authorization" := by
  have hdev : (lowerKey "device-id" == lowerKey "Authorization") = false := by decide
  have hsid : (lowerKey "X-Session-ID" == lowerKey "Authorization") = false := by decide
  cases op with
  | updateDeviceId d => rw [applyOp, update_device_id]; rw [hget_hset, hdev]; rfl
  | updateSessionId sid => rw [applyOp, update_session_id]; rw [hget_hset, hsid]; rfl
  | doRequest o => rfl

/-- The `Authorization` lookup is invariant under any sequence of
non-token-updating client operations. -/
theorem hget_applyOps_auth (st : ApiClientState) (ops : List ClientOp) :
    hget (applyOps st ops).session_headers "Authorization" =
      hget st.session_headers "Authorization" := by
  induction ops generalizing st with
  | nil => rfl
  | cons op ops ih =>
      show hget (applyOps (applyOp st op) ops).session_headers "Authorization" = _
      rw [ih, hget_applyOp_auth]

/-- Per-call header overrides that never mention `Authorization`
(case-insensitively) leave the request's `Authorization` header equal to the
session's. -/
theorem hget_requestHeaders_auth (st : ApiClientState) (overrides : Headers)
    (hov : ∀ kv ∈ overrides, lowerKey kv.1 ≠ "authorization") :
    hget (requestHeaders st overrides) "Authorization" =
      hget st.session_headers "Authorization" := by
  suffices h : ∀ hs : Headers,
      hget (overrides.foldl (fun acc kv => hset acc kv.1 kv.2) hs) "Authorization" =
        hget hs "Authorization" from h st.session_headers
  induction overrides with
  | nil => intro hs; rfl
  | cons kv rest ih =>
      intro hs
      have hkv : lowerKey kv.1 ≠ "authorization" := hov kv (by simp)
      have hrest : ∀ kv' ∈ rest, lowerKey kv'.1 ≠ "authorization" := by
        intro kv' hm
        exact hov kv' (by simp [hm])
      have := ih hrest (hset hs kv.1 kv.2)
      show hget (rest.foldl (fun acc p => hset acc p.1 p.2) (hset hs kv.1 kv.2))
            "Authorization" = _
      rw [this, hget_hset]
      have hfalse : (lowerKey kv.1 == lowerKey "Authorization") = false := by
        have hlow : lowerKey "Authorization" = "authorization" := by decide
        rw [hlow]
        exact beq_eq_false_iff_ne.mpr hkv
      rw [hfalse]
      rfl

/-- C9: after `update_access_token` with token `tok`, any sequence of
`update_device_id`, `update_session_id` and request operations leaves the
session's `Authorization` header at `Bearer tok`, and every request whose
per-call overrides do not mention `Authorization` (case-insensitively)
carries exactly that header. -/
theorem bearer_header_invariant (st : ApiClientState) (tok : String)
    (ops : List ClientOp) (overrides : Headers)
    (hov : ∀ kv ∈ overrides, lowerKey kv.1 ≠ "authorization") :
    hget (applyOps (update_access_token st tok) ops).session_headers
        "Authorization" = some ("Bearer " ++ tok) ∧
    hget (requestHeaders (applyOps (update_access_token st tok) ops) overrides)
        "Authorization" = some ("Bearer " ++ tok) := by
  have hbase : hget (update_access_token st tok).session_headers "Authorization" =
      some ("Bearer " ++ tok) := by
    rw [update_access_token]
    show hget (hset st.session_headers "Authorization" ("Bearer " ++ tok))
        "Authorization" = _
    rw [hget_hset]
    simp
  have h1 := hget_applyOps_auth (update_access_token st tok) ops
  refine ⟨h1.trans hbase, ?_⟩
  rw [hget_requestHeaders_auth _ _ hov, h1, hbase]

/-- Closed instance of `bearer_header_invariant`: starting from an empty
client, setting the token and then updating the device id, issuing a request
with a `Content-Type` override, and rotating the session id still sends
`Authorization: Bearer tok99`. -/
theorem bearer_header_invariant_witness :
    hget (applyOps (update_access_token ⟨none, none, none, [], []⟩ "tok99")
          [.updateDeviceId "dev1",
           .doRequest [("Content-Type", "application/json; charset=utf-8")],
           .updateSessionId "7070"]).session_headers
        "Authorization" = some ("Bearer " ++ "tok99") ∧
    hget (requestHeaders (applyOps (update_access_token ⟨none, none, none, [], []⟩ "tok99")
          [.updateDeviceId "dev1",
           .doRequest [("Content-Type", "application/json; charset=utf-8")],
           .updateSessionId "7070"])
          [("device-id", "dev2")])
        "Authorization" = some ("Bearer " ++ "tok99") :=
  bearer_header_invariant ⟨none, none, none, [], []⟩ "tok99"
    [.updateDeviceId "dev1",
     .doRequest [("Content-Type", "application/json; charset=utf-8")],
     .updateSessionId "7070"]
    [("device-id", "dev2")] (by decide)

/-! ## Login-flow theorems -/

/-- C4: when the credential-exchange response body has no error object and
carries an access token, `Client.login` completes the flow immediately: it
returns that token, never invokes the OTP path (for any behaviour of the
two-factor collaborator), and the client ends with its `access_token` field
set to the token and its session sending `Authorization: Bearer <token>`. -/
theorem login_no_error_authenticated (st : ApiClientState)
    (twoFactor : ApiClientState → Except AuthError (String × ApiClientState))
    (status : Nat) (headers : Headers) (fields : List (String × Json)) (tok : String)
    (herr : jlookup fields "error" = none)
    (htok : jlookup fields "access_token" = some (.str tok)) :
    Client_login st ⟨status, headers, .obj fields⟩ twoFactor =
      .ok (tok, update_access_token st tok, false) ∧
    (update_access_token st tok).access_token = some tok ∧
    hget (update_access_token st tok).session_headers "Authorization" =
      some ("Bearer " ++ tok) := by
  refine ⟨?_, rfl, ?_⟩
  · simp [Client_login, login_with_credentials_cli, herr, htok, Json.truthy]
  · rw [update_access_token]
    show hget (hset st.session_headers "Authorization" ("Bearer " ++ tok))
        "Authorization" = _
    rw [hget_hset]
    simp

/-- Closed instance of `login_no_error_authenticated`: the spec's scenario —
body `{"access_token": "tok123"}` with no `error` key — reaches the
authenticated state with token `"tok123"` and no OTP step. -/
theorem login_no_error_authenticated_witness :
    Client_login ⟨none, some "dev1", none, [], []⟩
        ⟨200, [], .obj [("access_token", .str "tok123")]⟩
        (fun _ => .error .authenticationFailed) =
      .ok ("tok123", update_access_token ⟨none, some "dev1", none, [], []⟩ "tok123",
           false) ∧
    (update_access_token ⟨none, some "dev1", none, [], []⟩ "tok123").access_token =
      some "tok123" ∧
    hget (update_access_token ⟨none, some "dev1", none, [], []⟩
        "tok123").session_headers "Authorization" = some ("Bearer " ++ "tok123") :=
  login_no_error_authenticated ⟨none, some "dev1", none, [], []⟩
    (fun _ => .error .authenticationFailed) 200 [] [("access_token", .str "tok123")]
    "tok123" rfl rfl

/-- C5: the OTP prompt loop does not enforce a length of exactly 6 — its
condition is `len(otp) < 6 or not otp.isdigit()` — so the seven-digit input
`"1234567"` is accepted and returned as entered, although the prompt text
demands 6 digits. (The loop does re-prompt on short or non-numeric input.) -/
theorem ask_otp_accepts_seven_digits :
    ask_user_for_otp_password ["1234567"] = some "1234567" ∧
    "1234567".length = 7 ∧
    ask_user_for_otp_password ["123", "abcdef", "123456"] = some "123456" :=
  ⟨rfl, rfl, rfl⟩

/-! ## Pagination theorems -/

/-- The request built by `search_for_users` depends on the offset only in
its `offset` field. -/
theorem searchParams_offset_eq (query : String) (u : Bool) (l o : Nat) :
    searchParams query u l o = { searchParams query u l 0 with offset := o } := by
  by_cases h : (u || query.contains '@') = true
  · simp [searchParams, h]
  · rw [Bool.not_eq_true] at h
    simp [searchParams, h]

/-- C2: a retrieval call with limit `N` starting at offset 0 — user search
or friends list — produces a page whose "next page" re-invokes the recorded
call with the same non-offset parameters and offset exactly `N`, even when
the first page held fewer than `N` items; the next page's own "next page"
requests offset exactly `2N`. -/
theorem next_page_offset_advance {α β : Type} (upstreamS : SearchRequest → List α)
    (upstreamF : FriendsRequest → List β) (query uid : String) (N : Nat)
    (h1 : (search_for_users upstreamS query 0 N false).items.length < N)
    (h2 : (get_user_friends_list upstreamF uid 0 N).items.length < N) :
    (search_for_users upstreamS query 0 N false).nextRequest =
      { searchParams query false N 0 with offset := N } ∧
    ((search_for_users upstreamS query 0 N false).nextPage upstreamS).nextRequest =
      { searchParams query false N 0 with offset := N + N } ∧
    (get_user_friends_list upstreamF uid 0 N).nextRequest = ⟨uid, N, N⟩ ∧
    ((get_user_friends_list upstreamF uid 0 N).nextPage upstreamF).nextRequest =
      ⟨uid, N, N + N⟩ := by
  refine ⟨?_, ?_, ?_, ?_⟩
  · show searchParams query false N (0 + N) = _
    rw [Nat.zero_add, searchParams_offset_eq]
  · show searchParams query false N ((0 + N) + N) = _
    rw [Nat.zero_add, searchParams_offset_eq]
  · show (⟨uid, N, 0 + N⟩ : FriendsRequest) = _
    rw [Nat.zero_add]
  · show (⟨uid, N, (0 + N) + N⟩ : FriendsRequest) = _
    rw [Nat.zero_add]

/-- Closed instance of `next_page_offset_advance`: with an upstream that
returns an empty first page for limit 5, the first next-page request carries
offset 5 and the second carries offset 10. -/
theorem next_page_offset_advance_witness :
    ((search_for_users (fun _ => ([] : List Nat)) "alice" 0 5 false).items.length < 5) ∧
    ((search_for_users (fun _ => ([] : List Nat)) "alice" 0 5 false).nextRequest =
      { searchParams "alice" false 5 0 with offset := 5 } ∧
    ((search_for_users (fun _ => ([] : List Nat)) "alice" 0 5
        false).nextPage (fun _ => ([] : List Nat))).nextRequest =
      { searchParams "alice" false 5 0 with offset := 5 + 5 } ∧
    (get_user_friends_list (fun _ => ([] : List Nat)) "uid-1" 0 5).nextRequest =
      ⟨"uid-1", 5, 5⟩ ∧
    ((get_user_friends_list (fun _ => ([] : List Nat)) "uid-1" 0
        5).nextPage (fun _ => ([] : List Nat))).nextRequest =
      ⟨"uid-1", 5, 5 + 5⟩) :=
  ⟨by decide,
   next_page_offset_advance (fun _ => ([] : List Nat)) (fun _ => ([] : List Nat))
     "alice" "uid-1" 5 (by decide) (by decide)⟩

/-! ## Deserializer theorems -/

/-- A successful element-wise conversion yields as many records as inputs. -/
theorem get_objs_length {α : Type} {conv : Json → Option α} :
    ∀ {xs : List Json} {ys : List α},
      get_objs_from_json_list conv xs = some ys → ys.length = xs.length := by
  intro xs
  induction xs with
  | nil =>
      intro ys h
      simp [get_objs_from_json_list] at h
      simp [← h]
  | cons x xs ih =>
      intro ys h
      unfold get_objs_from_json_list at h
      cases hc : conv x with
      | none => rw [hc] at h; exact absurd h (by simp)
      | some a =>
          rw [hc] at h
          cases hr : get_objs_from_json_list conv xs with
          | none => rw [hr] at h; exact absurd h (by simp)
          | some rest =>
              rw [hr] at h
              cases h
              simp [ih hr]

/-- A successful element-wise conversion converts in order: the `i`-th
output is the conversion of the `i`-th input. -/
theorem get_objs_get {α : Type} {conv : Json → Option α} :
    ∀ {xs : List Json} {ys : List α},
      get_objs_from_json_list conv xs = some ys →
      ∀ i (hx : i < xs.length) (hy : i < ys.length),
        conv (xs.get ⟨i, hx⟩) = some (ys.get ⟨i, hy⟩) := by
  intro xs
  induction xs with
  | nil => intro ys h i hx hy; exact absurd hx (by simp)
  | cons x xs ih =>
      intro ys h i hx hy
      unfold get_objs_from_json_list at h
      cases hc : conv x with
      | none => rw [hc] at h; exact absurd h (by simp)
      | some a =>
          rw [hc] at h
          cases hr : get_objs_from_json_list conv xs with
          | none => rw [hr] at h; exact absurd h (by simp)
          | some rest =>
              rw [hr] at h
              cases h
              cases i with
              | zero => simpa using hc
              | succ j =>
                  exact ih hr j (Nat.lt_of_succ_lt_succ hx)
                    (Nat.lt_of_succ_lt_succ hy)

/-- C8: on a response whose body has a list-valued `data` field,
`deserialize` with an empty nested path returns a page of exactly the
converted records, in input order and of the same length, when every element
converts; if any element fails to convert, the whole call fails with a
conversion error and no partial page is returned. -/
theorem deserialize_list_page {α : Type} (conv : Json → Option α) (status : Nat)
    (headers : Headers) (fields : List (String × Json)) (xs : List Json)
    (hdata : jlookup fields "data" = some (.arr xs)) :
    (∀ ys, get_objs_from_json_list conv xs = some ys →
        deserialize conv ⟨status, headers, .obj fields⟩ [] = .ok (.page ⟨ys⟩) ∧
        ys.length = xs.length ∧
        ∀ i (hx : i < xs.length) (hy : i < ys.length),
          conv (xs.get ⟨i, hx⟩) = some (ys.get ⟨i, hy⟩)) ∧
    (get_objs_from_json_list conv xs = none →
        deserialize conv ⟨status, headers, .obj fields⟩ [] =
          .error .conversionError) := by
  have hne : (Json.obj fields).truthy = true := by
    cases fields with
    | nil => simp [jlookup, List.find?] at hdata
    | cons p rest => simp [Json.truthy]
  constructor
  · intro ys hys
    refine ⟨?_, get_objs_length hys, get_objs_get hys⟩
    simp [deserialize, hne, dictGet, hdata, walkNested, hys]
  · intro hfail
    simp [deserialize, hne, dictGet, hdata, walkNested, hfail]

/-- Closed instance of `deserialize_list_page`: a body
`{"data": [3, 1, 4]}` with an integer conversion deserializes to the
three-element page `[3, 1, 4]` in order. -/
theorem deserialize_list_page_witness :
    deserialize (fun j => match j with | .num n => some n | _ => none)
        ⟨200, [], .obj [("data", .arr [.num 3, .num 1, .num 4])]⟩ [] =
      .ok (.page ⟨[(3 : Int), 1, 4]⟩) ∧
    ([(3 : Int), 1, 4].length = [Json.num 3, .num 1, .num 4].length) :=
  ⟨((deserialize_list_page (fun j => match j with | .num n => some n | _ => none)
      200 [] [("data", .arr [.num 3, .num 1, .num 4])] [.num 3, .num 1, .num 4]
      rfl).1 [(3 : Int), 1, 4] rfl).1,
   ((deserialize_list_page (fun j => match j with | .num n => some n | _ => none)
      200 [] [("data", .arr [.num 3, .num 1, .num 4])] [.num 3, .num 1, .num 4]
      rfl).1 [(3 : Int), 1, 4] rfl).2.1⟩

/-! ## Transfer theorems -/

/-- C10: `initiate_transfer` raises `ValueError` on every call passing an
explicit amount, before any request is issued; it also raises when neither
an amount nor a recorded balance is available; a transfer body is built only
for `amount=None` with a recorded balance, and then carries that balance
rounded to whole cents (Python `round`, half to even) as both `amount` and
`final_amount`. -/
theorem initiate_transfer_spec (balance : Option ℚ) (dest ttype : String)
    (amt : Option ℚ) :
    ((∃ a, amt = some a) →
        initiate_transfer balance dest amt ttype = .error .valueError) ∧
    (amt = none → balance = none →
        initiate_transfer balance dest amt ttype = .error .valueError) ∧
    (∀ b, amt = none → balance = some b →
        initiate_transfer balance dest amt ttype =
          .ok ⟨pyRound (b * 100), dest, ttype, pyRound (b * 100)⟩) := by
  refine ⟨?_, ?_, ?_⟩
  · rintro ⟨a, rfl⟩
    cases balance <;> rfl
  · rintro rfl rfl
    rfl
  · rintro b rfl rfl
    rfl

/-- Closed instance of `initiate_transfer_spec`: with a recorded balance of
123.455 dollars and no explicit amount, the posted body carries 12346 cents
(half-to-even rounding of 12345.5); with an explicit amount the call fails. -/
theorem initiate_transfer_spec_witness :
    initiate_transfer (some (123455 / 1000)) "dest-1" none "standard" =
      .ok ⟨pyRound ((123455 / 1000 : ℚ) * 100), "dest-1", "standard",
           pyRound ((123455 / 1000 : ℚ) * 100)⟩ ∧
    pyRound ((123455 / 1000 : ℚ) * 100) = 12346 ∧
    initiate_transfer (some (123455 / 1000)) "dest-1" (some 10) "standard" =
      .error .valueError :=
  ⟨(initiate_transfer_spec (some (123455 / 1000)) "dest-1" "standard" none).2.2
      (123455 / 1000) rfl rfl,
   by norm_num [pyRound],
   (initiate_transfer_spec (some (123455 / 1000)) "dest-1" "standard"
      (some 10)).1 ⟨10, rfl⟩⟩

end Venmo
